import Mathlib

/-!
# Verification of `aiohttp/web_handlers.py` (static file / directory handlers)

Shallow embedding of the `DirHandler` / `FileHandler` classes and the
`_FileHandlerMixin` transfer machinery.  Operating-system services are
modelled explicitly:

* the filesystem is a finite association list from absolute path strings to
  stat results (`Fs`); `os.stat` is lookup; `open` succeeds exactly when the
  path is present (the embedding is a snapshot, so no stat/open race occurs);
* `os.path.join` / `os.path.normpath` / `os.path.abspath` are translated from
  CPython's `posixpath` implementations; string operations are carried out on
  the character list (`String.data`), which is the mathematical content of a
  Python `str` (so e.g. `str.startswith` becomes `List.isPrefixOf` on the
  character lists);
* the source applies `stat.S_ISREG` / `stat.S_ISDIR` to the *whole* stat
  result instead of its `st_mode` (lines 186, 201, 203, 214, 216, 259); in
  CPython `S_IFMT(mode)` computes `mode & 0o170000`, which raises
  `TypeError` on a `stat_result`, so every such test is embedded as raising
  `.typeErr` (the stat structure still records the entry kind, which is what
  the code *tries* to test);
* `os.sendfile` outcomes (byte count, `BlockingIOError`, `InterruptedError`,
  other `OSError`) are an explicit result type fed to the callback;
* timestamps (`st_mtime`, parsed `If-Modified-Since` values) are rationals,
  since `st_mtime` carries sub-second precision;
* `mimetypes.guess_type` and `datetime` rendering are opaque parameters.
-/

/-- File kind as classified by `stat.S_ISREG` / `stat.S_ISDIR`; `other`
covers special files (sockets, devices, dangling symlink targets). -/
inductive FsKind
  | reg
  | dir
  | other
deriving DecidableEq

/-- Stat result plus, for regular files, the byte content returned by
`open(path, "rb").read`. -/
structure FsNode where
  kind : FsKind
  st_size : Nat
  st_mtime : ℚ
  content : List Nat := []
deriving DecidableEq

/-- The filesystem snapshot: absolute path → node. -/
def Fs : Type := List (String × FsNode)

/-- `os.stat(path)`: `none` models `FileNotFoundError`. -/
def osStat (fs : Fs) (path : String) : Option FsNode :=
  List.lookup path fs

/-- Python-level outcome of a handler call: the `web_exceptions` raised by
the source plus `typeErr`, the `TypeError` Python raises when a required
positional argument is missing at a call site. -/
inductive Err
  | httpNotFound
  | httpNotModified
  | httpMethodNotAllowed (method : String) (allowed : List String)
  | typeErr
deriving DecidableEq

deriving instance DecidableEq for Except

/-- Python `str.split(sep)` for a one-character separator, on character
lists: `"a/b" ↦ ["a", "b"]`, keeping empty pieces. -/
def chSplit (sep : Char) : List Char → List (List Char)
  | [] => [[]]
  | c :: rest =>
    if c = sep then [] :: chSplit sep rest
    else
      match chSplit sep rest with
      | [] => [[c]]
      | g :: gs => (c :: g) :: gs

/-- `posixpath.join(a, b)` (two-argument form, as used by the source), on
character lists. -/
def pyJoinC (a b : List Char) : List Char :=
  if ['/'].isPrefixOf b then b
  else if a = [] ∨ a.getLast? = some '/' then a ++ b
  else a ++ '/' :: b

/-- One step of `posixpath.normpath`'s component loop: skip `""` and `"."`;
append a component unless it is a poppable `".."`. -/
def normpathStep (initialSlashes : Nat) (acc : List (List Char))
    (comp : List Char) : List (List Char) :=
  if comp = [] ∨ comp = ['.'] then acc
  else if comp ≠ ['.', '.'] ∨ (initialSlashes = 0 ∧ acc = []) ∨
      acc.getLast? = some ['.', '.'] then
    acc ++ [comp]
  else if acc ≠ [] then acc.dropLast
  else acc

/-- `posixpath.normpath`: lexical normalization (collapse `.`, `..` and
repeated separators) without consulting the filesystem; character lists. -/
def normpathC (p : List Char) : List Char :=
  if p = [] then ['.']
  else
    let initialSlashes : Nat :=
      if ['/'].isPrefixOf p then
        if ['/', '/'].isPrefixOf p ∧ ¬ ['/', '/', '/'].isPrefixOf p then 2 else 1
      else 0
    let comps := chSplit '/' p
    let newComps := comps.foldl (normpathStep initialSlashes) []
    let full := List.replicate initialSlashes '/' ++ List.intercalate ['/'] newComps
    if full = [] then ['.'] else full

/-- `posixpath.join` on strings. -/
def pyJoin (a b : String) : String :=
  ⟨pyJoinC a.data b.data⟩

/-- `posixpath.normpath` on strings. -/
def normpath (p : String) : String :=
  ⟨normpathC p.data⟩

/-- `posixpath.abspath(p)` relative to a working directory. -/
def abspath (cwd p : String) : String :=
  if ['/'].isPrefixOf p.data then normpath p else normpath (pyJoin cwd p)

/-- `DirHandler.__init__`: `self._base_dir = os.path.abspath(base_dir)`. -/
def DirHandler.init_base (cwd base_dir : String) : String :=
  abspath cwd base_dir

/-- `DirHandler._validate_path`: join the requested segment onto the root,
normalize, reject unless the result textually starts with the root
(`path.startswith(self._base_dir)`), then stat.  Returns
`(req_path, path, path_stat)` on success. -/
def DirHandler.validate_path (fs : Fs) (base_dir req_path : String) :
    Except Err (String × String × FsNode) :=
  let path := normpath (pyJoin base_dir req_path)
  if ¬ base_dir.data.isPrefixOf path.data then .error .httpNotFound
  else
    match osStat fs path with
    | none => .error .httpNotFound
    | some path_stat => .ok (req_path, path, path_stat)

/-- Modelled from the spec: lexical containment of a normalized path inside
the configured root — the path is the root itself or a strict descendant
(root followed by a separator is a prefix).  This is the notion of "inside
the root" used by the traversal claim; the source's check is only a textual
`startswith`. -/
def insideRoot (root p : String) : Prop :=
  p = root ∨ (root.data ++ ['/']).isPrefixOf p.data

instance (root p : String) : Decidable (insideRoot root p) := by
  unfold insideRoot; infer_instance

/-- Concrete filesystem for the traversal counterexample: the root is
`/srv/www`, and a sibling directory `/srv/www2` (whose name extends the
root's name textually) holds a secret file. -/
def fsEscape : Fs :=
  [("/srv/www2/secret", ⟨.reg, 6, 0, [1, 2, 3, 4, 5, 6]⟩)]

/-! ## Transfer engine (`_FileHandlerMixin`) -/

/-- `_FileHandlerMixin.__init__`: `self._chunk_size = chunk_size or 1024 * 256`
(Python falsiness: `None` and `0` both select the default). -/
def mk_chunk_size (chunk_size : Option Nat) : Nat :=
  match chunk_size with
  | none => 1024 * 256
  | some 0 => 1024 * 256
  | some n => n

/-- Python truthiness of `os.environ.get(...)`: absent and `""` are falsy,
every other string is truthy. -/
def env_truthy : Option String → Bool
  | none => false
  | some s => decide (s ≠ "")

/-- `_FileHandlerMixin.__init__`:
`self._no_sendfile = bool(os.environ.get("AIOHTTP_NOSENDFILE")) or not hasattr(os, "sendfile")`,
computed once at construction. -/
def mk_no_sendfile (env_nosendfile : Option String) (has_sendfile : Bool) : Bool :=
  env_truthy env_nosendfile || !has_sendfile

/-- The destination transport as seen through `get_extra_info`: an optional
raw socket (with its file descriptor) and whether an `sslcontext` is
present (TLS). -/
structure Transport where
  socket : Option Nat
  sslcontext : Bool
deriving DecidableEq

/-- Which body-transfer implementation `_sendfile` selects. -/
inductive SendfilePath
  | system
  | fallback
deriving DecidableEq

/-- The selection made by `_FileHandlerMixin._sendfile`:
`if not socket or sslcontext or self._no_sendfile:` use the buffered
fallback, else the kernel zero-copy path. -/
def sendfile_select (t : Transport) (no_sendfile : Bool) : SendfilePath :=
  if t.socket = none ∨ t.sslcontext ∨ no_sendfile then .fallback else .system

/-- The loop of `_FileHandlerMixin._sendfile_fallback`, as the list of
writes issued to the response.  `data` is the file content, `pos` the file
position of the next `fobj.read`, `count` the remaining byte budget:

    chunk = fobj.read(chunk_size)
    while chunk and count > chunk_size:
        resp.write(chunk); yield from resp.drain()
        count = count - chunk_size
        chunk = fobj.read(chunk_size)
    if chunk:
        resp.write(chunk[:count]); yield from resp.drain()
-/
def sendfile_fallback_loop (data : List Nat) (chunk_size : Nat)
    (pos count : Nat) : List (List Nat) :=
  if h : ((data.drop pos).take chunk_size) ≠ [] ∧ chunk_size < count then
    ((data.drop pos).take chunk_size) ::
      sendfile_fallback_loop data chunk_size
        (pos + ((data.drop pos).take chunk_size).length) (count - chunk_size)
  else if ((data.drop pos).take chunk_size) ≠ [] then
    [((data.drop pos).take chunk_size).take count]
  else []
termination_by count
decreasing_by
  have hcs : chunk_size ≠ 0 := by
    intro h0
    exact h.1 (by simp [h0])
  omega

/-- `_FileHandlerMixin._sendfile_fallback` started at file position 0 with a
byte budget of `count`: the sequence of writes. -/
def sendfile_fallback (data : List Nat) (chunk_size count : Nat) :
    List (List Nat) :=
  sendfile_fallback_loop data chunk_size 0 count

/-- Outcome of one `os.sendfile(out_fd, in_fd, offset, count)` attempt. -/
inductive SendfileResult
  | transferred (n : Nat)
  | wouldBlock
  | interrupted
  | ioError (e : Nat)
deriving DecidableEq

/-- Observable state of the `_sendfile_system_cb` future / writer
registration after one callback run: re-registered with new arguments
(`loop.add_writer(..., offset + n, count - n, ...)`), completed
(`fut.set_result(None)`), or failed (`fut.set_exception(exc)`). -/
inductive CbState
  | inProgress (offset count : Nat)
  | done
  | failed (e : Nat)
deriving DecidableEq

/-- Tail of `_sendfile_system_cb` after `n` has been computed:
`if n < count: loop.add_writer(..., offset + n, count - n, ...) else fut.set_result(None)`. -/
def sendfile_advance (offset count n : Nat) : CbState :=
  if n < count then .inProgress (offset + n) (count - n) else .done

/-- `_FileHandlerMixin._sendfile_system_cb` body for one attempt at state
`(offset, count)`: `n = os.sendfile(...)`; a zero return is rewritten to
`count` ("EOF reached"); `BlockingIOError` / `InterruptedError` count as
`n = 0`; any other exception is set on the future and the callback returns. -/
def sendfile_system_cb (offset count : Nat) (res : SendfileResult) : CbState :=
  match res with
  | .ioError e => .failed e
  | .wouldBlock => sendfile_advance offset count 0
  | .interrupted => sendfile_advance offset count 0
  | .transferred m => sendfile_advance offset count (if m = 0 then count else m)

/-- The kernel never reports more bytes transferred than were requested. -/
def kernel_ok (count : Nat) : SendfileResult → Prop
  | .transferred n => n ≤ count
  | _ => True

/-- States of the zero-copy retry loop reachable from the initial call
`self._sendfile_system_cb(fut, out_fd, in_fd, 0, count, loop, False)` with
total byte budget `total`, under kernel-bounded attempt outcomes. -/
inductive SendfileReaches (total : Nat) : CbState → Prop
  | init : SendfileReaches total (.inProgress 0 total)
  | step (offset count : Nat) (res : SendfileResult) :
      SendfileReaches total (.inProgress offset count) →
      kernel_ok count res →
      SendfileReaches total (sendfile_system_cb offset count res)

/-! ## Requests, responses, conditional GET -/

/-- The inbound request surface used by the handlers: `req.method`,
`req.match.get("path", "")` and `req.if_modified_since` (already converted
to a POSIX timestamp, `modsince.timestamp()`). -/
structure Request where
  method : String
  path : String
  if_modified_since : Option ℚ
deriving DecidableEq

/-- The `StreamResponse` fields the handlers set, plus the written body. -/
structure StreamResponse where
  content_type : String := ""
  charset : Option String := none
  content_encoding : Option String := none
  last_modified : ℚ := 0
  content_length : Option Nat := none
  body : List Nat := []
deriving DecidableEq

/-- The conditional-GET test shared by `_head_file` and `_head_index`:
`modsince is not None and file_mtime <= modsince.timestamp()`.  Note the
comparison uses the raw (fractional) mtime. -/
def not_modified_check (modsince : Option ℚ) (mtime : ℚ) : Bool :=
  match modsince with
  | none => false
  | some t => decide (mtime ≤ t)

/-- `mimetypes.guess_type` as an opaque lookup: content type and content
encoding guessed from the path. -/
def GuessType : Type := String → Option String × Option String

/-- `_FileHandlerMixin._head_file(req, path, path_stat, response_factory)`:
raise `HTTPNotModified` on a satisfied conditional, otherwise build the
response from a fresh `response_factory()` object. -/
def head_file (guess_type : GuessType) (req : Request) (path : String)
    (path_stat : FsNode) (response_factory : Unit → StreamResponse) :
    Except Err StreamResponse :=
  if not_modified_check req.if_modified_since path_stat.st_mtime then
    .error .httpNotModified
  else
    let ct := (guess_type path).1
    let enc := (guess_type path).2
    let resp := response_factory ()
    .ok { resp with
          content_type := ct.getD "application/octet-stream",
          content_encoding :=
            match enc with
            | none => resp.content_encoding
            | some e => if e = "" then resp.content_encoding else some e,
          last_modified := path_stat.st_mtime,
          content_length := some path_stat.st_size }

/-- `_FileHandlerMixin._get_file`: headers via `_head_file`, then open the
file (`FileNotFoundError` → `HTTPNotFound`) and transfer
`path_stat.st_size` bytes of it as the body. -/
def get_file (guess_type : GuessType) (fs : Fs) (req : Request)
    (path : String) (path_stat : FsNode)
    (response_factory : Unit → StreamResponse) : Except Err StreamResponse :=
  match head_file guess_type req path path_stat response_factory with
  | .error e => .error e
  | .ok resp =>
    match osStat fs path with
    | none => .error .httpNotFound
    | some node =>
      .ok { resp with
            body := (sendfile_fallback node.content (mk_chunk_size none)
                      path_stat.st_size).flatten }

/-! ## Directory handler -/

/-- `DirHandler._head_index(req, dir_stat)`: `HTTPNotModified` on a
satisfied conditional, else an HTML response carrying the directory mtime
(content length deferred until the listing is rendered). -/
def head_index (req : Request) (dir_stat : FsNode)
    (response_factory : Unit → StreamResponse) : Except Err StreamResponse :=
  if not_modified_check req.if_modified_since dir_stat.st_mtime then
    .error .httpNotModified
  else
    let resp := response_factory ()
    .ok { resp with
          content_type := "text/html",
          charset := some "utf-8",
          last_modified := dir_stat.st_mtime }

/-- `DirHandler.head`: validate the path; for any path whose stat
succeeded, line 201 `if stat.S_ISREG(path_stat):` passes the whole stat
result to `S_ISREG` and raises `TypeError`, so the `_head_file` call (line
202, itself missing its `response_factory` argument), the indexed-directory
branch and the 404 else-branch are all unreachable. -/
def DirHandler.head (fs : Fs) (base_dir : String) (index : Bool)
    (req : Request) : Except Err StreamResponse :=
  match DirHandler.validate_path fs base_dir req.path with
  | .error e => .error e
  | .ok _ => .error .typeErr

/-- `DirHandler.get`: validate the path; for any path whose stat succeeded,
line 214 `if stat.S_ISREG(path_stat):` raises `TypeError` exactly as in
`DirHandler.head`, so the `_get_file` call (line 215, also missing its
`response_factory` argument), the listing branch (lines 216-223) and the
404 else-branch are unreachable. -/
def DirHandler.get (fs : Fs) (base_dir : String) (index : Bool)
    (req : Request) : Except Err StreamResponse :=
  match DirHandler.validate_path fs base_dir req.path with
  | .error e => .error e
  | .ok _ => .error .typeErr

/-- `DirHandler.__call__`: dispatch on the request method; any method other
than GET and HEAD raises `HTTPMethodNotAllowed(method, ("HEAD", "GET"))`
before the path is even looked at. -/
def DirHandler.call (fs : Fs) (base_dir : String) (index : Bool)
    (req : Request) : Except Err StreamResponse :=
  if req.method = "GET" then DirHandler.get fs base_dir index req
  else if req.method = "HEAD" then DirHandler.head fs base_dir index req
  else .error (.httpMethodNotAllowed req.method ["HEAD", "GET"])

/-! ## File handler -/

/-- `FileHandler._check_path`: stat (absence → `HTTPNotFound`); for any
path that does stat, line 259 `if not stat.S_ISREG(path_stat):` passes the
whole stat result to `S_ISREG` and raises `TypeError`, so the function can
never return a stat result. -/
def FileHandler.check_path (fs : Fs) (path : String) : Except Err FsNode :=
  match osStat fs path with
  | none => .error .httpNotFound
  | some _ => .error .typeErr

/-- `FileHandler.head`. -/
def FileHandler.head (guess_type : GuessType) (fs : Fs) (path : String)
    (response_factory : Unit → StreamResponse) (req : Request) :
    Except Err StreamResponse :=
  match FileHandler.check_path fs path with
  | .error e => .error e
  | .ok path_stat => head_file guess_type req path path_stat response_factory

/-- `FileHandler.get`. -/
def FileHandler.get (guess_type : GuessType) (fs : Fs) (path : String)
    (response_factory : Unit → StreamResponse) (req : Request) :
    Except Err StreamResponse :=
  match FileHandler.check_path fs path with
  | .error e => .error e
  | .ok path_stat => get_file guess_type fs req path path_stat response_factory

/-- `FileHandler.__call__`: same method dispatch as `DirHandler.__call__`. -/
def FileHandler.call (guess_type : GuessType) (fs : Fs) (path : String)
    (response_factory : Unit → StreamResponse) (req : Request) :
    Except Err StreamResponse :=
  if req.method = "GET" then FileHandler.get guess_type fs path response_factory req
  else if req.method = "HEAD" then FileHandler.head guess_type fs path response_factory req
  else .error (.httpMethodNotAllowed req.method ["HEAD", "GET"])

/-! ## Spec-side definitions and fixtures -/

/-- Modelled from the spec: the CacheValidator contract — a conditional
timestamp is present and the mtime *truncated to whole seconds* is at most
that timestamp. -/
def spec_not_modified (modsince : Option ℚ) (mtime : ℚ) : Prop :=
  ∃ t, modsince = some t ∧ (⌊mtime⌋ : ℚ) ≤ t

/-- A trivial `mimetypes.guess_type` stand-in for concrete fixtures. -/
def guess0 : GuessType := fun _ => (none, none)

/-- Fixture: a root directory with one existing regular file. -/
def fsSrv : Fs :=
  [("/srv/www", ⟨.dir, 0, 1, []⟩),
   ("/srv/www/a.txt", ⟨.reg, 3, 2, [10, 11, 12]⟩)]

-- sanity examples
example : normpath (pyJoin "/srv/www" "../www2/secret") = "/srv/www2/secret" := by decide
example : DirHandler.init_base "/" "/srv/www" = "/srv/www" := by decide
example : normpath "/a//b/./c/../d" = "/a/b/d" := by decide
example : normpath "/../x" = "/x" := by decide
example : normpath "a/../../b" = "../b" := by decide

/-- C1: the traversal filter is only a textual `startswith` on the
normalized path, so a `..` segment that normalizes to a *sibling* of the
root whose name textually extends the root's name escapes: with root
`/srv/www`, the request `../www2/secret` normalizes to `/srv/www2/secret`,
which lies outside the root yet is accepted and resolved (served), instead
of being classified NotFound as the claim requires. -/
theorem validate_path_escape_bug :
    DirHandler.validate_path fsEscape (DirHandler.init_base "/" "/srv/www")
        "../www2/secret" =
      .ok ("../www2/secret", "/srv/www2/secret", ⟨.reg, 6, 0, [1, 2, 3, 4, 5, 6]⟩) ∧
    ¬ insideRoot "/srv/www" "/srv/www2/secret" := by
  constructor
  · decide
  · decide

/-- C6: the kernel zero-copy path is selected iff the transport exposes a
raw socket, no TLS context is present, the environment toggle (read once at
construction into `_no_sendfile`) is not truthy, and `os.sendfile` exists
on the platform; otherwise `_sendfile` takes the buffered fallback. -/
theorem sendfile_selection_iff (t : Transport) (env : Option String)
    (has_sendfile : Bool) :
    sendfile_select t (mk_no_sendfile env has_sendfile) = .system ↔
      t.socket ≠ none ∧ t.sslcontext = false ∧ env_truthy env = false ∧
        has_sendfile = true := by
  rcases t with ⟨sock, ssl⟩
  cases henv : env_truthy env <;> cases has_sendfile <;> cases ssl <;>
    cases sock <;> simp [sendfile_select, mk_no_sendfile, henv]

/-- C7: when `os.sendfile` reports zero bytes transferred, the callback
rewrites `n` to the whole remaining `count` ("EOF reached") and resolves
the future successfully, with no retry and no error. -/
theorem sendfile_zero_report_completes (offset count : Nat) :
    sendfile_system_cb offset count (.transferred 0) = .done := by
  simp [sendfile_system_cb, sendfile_advance]

/-- C8: the callback fails the transfer exactly on results other than
would-block/interrupted/byte-counts — `fut.set_exception` happens iff
`os.sendfile` raised a non-retryable exception, which is propagated
unchanged and never re-registered; would-block and interrupted outcomes
with budget remaining are retried as zero-progress re-registrations at the
same `(offset, count)`. -/
theorem sendfile_error_fatal :
    (∀ offset count res e,
      sendfile_system_cb offset count res = .failed e ↔ res = .ioError e) ∧
    (∀ offset count, 0 < count →
      sendfile_system_cb offset count .wouldBlock = .inProgress offset count ∧
      sendfile_system_cb offset count .interrupted = .inProgress offset count) := by
  constructor
  · intro offset count res e
    cases res with
    | transferred m =>
      by_cases hm : m = 0 <;>
        simp only [sendfile_system_cb, sendfile_advance, hm, if_true, if_false] <;>
        split <;> simp
    | wouldBlock =>
      simp only [sendfile_system_cb, sendfile_advance]
      split <;> simp
    | interrupted =>
      simp only [sendfile_system_cb, sendfile_advance]
      split <;> simp
    | ioError e2 => simp [sendfile_system_cb]
  · intro offset count hc
    constructor <;> simp [sendfile_system_cb, sendfile_advance, hc]

/-- C8 witness: at `(offset, count) = (1, 2)`, an I/O error with payload 7
is fatal and propagated, and a would-block outcome is re-registered at the
same state. -/
theorem sendfile_error_fatal_witness :
    (0 : Nat) < 2 ∧
    sendfile_system_cb 1 2 (.ioError 7) = .failed 7 ∧
    sendfile_system_cb 1 2 .wouldBlock = .inProgress 1 2 :=
  ⟨by decide, (sendfile_error_fatal.1 1 2 (.ioError 7) 7).mpr rfl,
    (sendfile_error_fatal.2 1 2 (by decide)).1⟩

/-- C3 counterexample: the code compares the *raw* fractional mtime, not
the second-truncated one.  With mtime `10.5` and `If-Modified-Since`
timestamp `10`, the claim's truncated comparison (`⌊10.5⌋ = 10 ≤ 10`)
demands Not-Modified (304), but `not_modified_check` — the test used by
both `_head_file` and `_head_index` — is false (`10.5 ≤ 10` fails), so the
code answers 200 with the full body. -/
theorem not_modified_fractional_counterexample :
    not_modified_check (some 10) (21 / 2 : ℚ) = false ∧
      spec_not_modified (some 10) (21 / 2 : ℚ) := by
  constructor
  · unfold not_modified_check
    norm_num
  · refine ⟨10, rfl, ?_⟩
    have h : (⌊(21 / 2 : ℚ)⌋ : ℤ) = 10 := by norm_num [Int.floor_eq_iff]
    rw [h]
    norm_num

/-- C3 amended: `_head_file` and `_head_index` short-circuit with
`HTTPNotModified` (and otherwise produce a 200 response) iff an
`If-Modified-Since` timestamp is present and the resource's raw mtime —
including fractional seconds, with no truncation — is less than or equal
to that timestamp. -/
theorem not_modified_iff_raw_mtime :
    ∀ (guess_type : GuessType) (req : Request) (path : String) (st : FsNode)
      (rf : Unit → StreamResponse),
      (head_file guess_type req path st rf = .error .httpNotModified ↔
        ∃ t, req.if_modified_since = some t ∧ st.st_mtime ≤ t) ∧
      (head_index req st rf = .error .httpNotModified ↔
        ∃ t, req.if_modified_since = some t ∧ st.st_mtime ≤ t) := by
  intro guess_type req path st rf
  have hnm : not_modified_check req.if_modified_since st.st_mtime = true ↔
      ∃ t, req.if_modified_since = some t ∧ st.st_mtime ≤ t := by
    cases h : req.if_modified_since <;> simp [not_modified_check]
  constructor
  · rw [← hnm]
    unfold head_file
    split
    · next hcheck => simp [hcheck]
    · next hcheck => simp [hcheck]
  · rw [← hnm]
    unfold head_index
    split
    · next hcheck => simp [hcheck]
    · next hcheck => simp [hcheck]

/-- C4 counterexample: `__call__` dispatches on the method *before* any
path work, so a POST whose path does not resolve yields
`HTTPMethodNotAllowed` (405), not the 404 the claim requires. -/
theorem method_dispatch_counterexample :
    DirHandler.call ([] : Fs) "/srv/www" true
        ⟨"POST", "../../etc/passwd", none⟩ =
      .error (.httpMethodNotAllowed "POST" ["HEAD", "GET"]) ∧
    DirHandler.validate_path ([] : Fs) "/srv/www" "../../etc/passwd" =
      .error .httpNotFound ∧
    Err.httpMethodNotAllowed "POST" ["HEAD", "GET"] ≠ Err.httpNotFound := by
  refine ⟨by decide, by decide, by decide⟩

/-- C4 amended: per request the handlers check the method *first*: any
method other than GET and HEAD yields 405 listing HEAD and GET, regardless
of whether the path resolves.  For GET and HEAD requests, a path rejected
by the traversal check or absent from the filesystem yields 404, while a
path whose stat succeeds dies with the `TypeError` raised by
`stat.S_ISREG(stat_result)` (lines 201/214/259) before any decision about
the resource. -/
theorem method_dispatch_amended :
    ∀ (fs : Fs) (base_dir : String) (index : Bool) (guess_type : GuessType)
      (fpath : String) (rf : Unit → StreamResponse) (req : Request),
      (req.method ≠ "GET" → req.method ≠ "HEAD" →
        DirHandler.call fs base_dir index req =
          .error (.httpMethodNotAllowed req.method ["HEAD", "GET"]) ∧
        FileHandler.call guess_type fs fpath rf req =
          .error (.httpMethodNotAllowed req.method ["HEAD", "GET"])) ∧
      ((req.method = "GET" ∨ req.method = "HEAD") →
        (DirHandler.validate_path fs base_dir req.path = .error .httpNotFound →
          DirHandler.call fs base_dir index req = .error .httpNotFound) ∧
        (osStat fs fpath = none →
          FileHandler.call guess_type fs fpath rf req = .error .httpNotFound) ∧
        (osStat fs fpath ≠ none →
          FileHandler.call guess_type fs fpath rf req = .error .typeErr) ∧
        (∀ v, DirHandler.validate_path fs base_dir req.path = .ok v →
          DirHandler.call fs base_dir index req = .error .typeErr)) := by
  intro fs base_dir index guess_type fpath rf req
  constructor
  · intro hg hh
    constructor
    · simp [DirHandler.call, hg, hh]
    · simp [FileHandler.call, hg, hh]
  · intro hm
    have hdir : ∀ r, DirHandler.validate_path fs base_dir req.path = r →
        DirHandler.call fs base_dir index req =
          match r with
          | .error e => .error e
          | .ok _ => .error .typeErr := by
      intro r hval
      rcases hm with hG | hH
      · simp [DirHandler.call, hG, DirHandler.get, hval]
      · by_cases hg : req.method = "GET"
        · simp [DirHandler.call, hg, DirHandler.get, hval]
        · simp [DirHandler.call, hg, hH, DirHandler.head, hval]
    have hfile : ∀ r, osStat fs fpath = r →
        FileHandler.call guess_type fs fpath rf req =
          match r with
          | none => .error .httpNotFound
          | some _ => .error .typeErr := by
      intro r hstat
      rcases hm with hG | hH
      · simp [FileHandler.call, hG, FileHandler.get, FileHandler.check_path, hstat]
        cases r <;> simp
      · by_cases hg : req.method = "GET"
        · simp [FileHandler.call, hg, FileHandler.get, FileHandler.check_path, hstat]
          cases r <;> simp
        · simp [FileHandler.call, hg, hH, FileHandler.head, FileHandler.check_path,
            hstat]
          cases r <;> simp
    refine ⟨fun hval => hdir _ hval, fun hstat => hfile _ hstat, ?_, ?_⟩
    · intro hstat
      cases hs : osStat fs fpath with
      | none => exact absurd hs hstat
      | some node => exact hfile _ hs
    · intro v hval
      exact hdir _ hval

/-- C4 amended witness: a PUT to an unresolvable path is answered 405 by
`DirHandler`, a GET for a missing file is answered 404 by `FileHandler`,
and a GET for an existing file dies with `TypeError`. -/
theorem method_dispatch_amended_witness :
    DirHandler.call ([] : Fs) "/r" true ⟨"PUT", "x", none⟩ =
      .error (.httpMethodNotAllowed "PUT" ["HEAD", "GET"]) ∧
    FileHandler.call guess0 ([] : Fs) "/f" (fun _ => {}) ⟨"GET", "", none⟩ =
      .error .httpNotFound ∧
    FileHandler.call guess0 fsSrv "/srv/www/a.txt" (fun _ => {})
        ⟨"GET", "", none⟩ =
      .error .typeErr :=
  ⟨((method_dispatch_amended [] "/r" true guess0 "/f"
        (fun _ => {}) ⟨"PUT", "x", none⟩).1 (by decide) (by decide)).1,
    ((method_dispatch_amended [] "/r" true guess0 "/f"
        (fun _ => {}) ⟨"GET", "", none⟩).2 (Or.inl rfl)).2.1 (by decide),
    ((method_dispatch_amended fsSrv "/r" true guess0 "/srv/www/a.txt"
        (fun _ => {}) ⟨"GET", "", none⟩).2 (Or.inl rfl)).2.2.1 (by decide)⟩

/-- C5 (code evaluated at the failing input): for an existing regular file,
*neither* handler reports any headers at all — every path whose stat
succeeds dies with the `TypeError` raised by `stat.S_ISREG(stat_result)`
(line 259 for `FileHandler._check_path`, lines 201/214 for
`DirHandler.head`/`get`; the `_head_file`/`_get_file` calls at lines
202/215, themselves missing the required `response_factory` argument, are
dead code behind it).  A missing file still yields 404, showing the
`TypeError` comes from the kind test, not from stat. -/
theorem serve_file_headers_typeerror :
    FileHandler.head guess0 fsSrv "/srv/www/a.txt" (fun _ => {})
        ⟨"HEAD", "", none⟩ = .error .typeErr ∧
    FileHandler.get guess0 fsSrv "/srv/www/a.txt" (fun _ => {})
        ⟨"GET", "", none⟩ = .error .typeErr ∧
    DirHandler.head fsSrv "/srv/www" true ⟨"HEAD", "a.txt", none⟩ =
      .error .typeErr ∧
    DirHandler.get fsSrv "/srv/www" true ⟨"GET", "a.txt", none⟩ =
      .error .typeErr ∧
    FileHandler.head guess0 fsSrv "/srv/www/missing.txt" (fun _ => {})
        ⟨"HEAD", "", none⟩ = .error .httpNotFound := by
  refine ⟨by decide, by decide, by decide, by decide, by decide⟩

/-- The generalized fallback-loop invariant: started at file position `pos`
with byte budget `count`, and at least `count` bytes available past `pos`,
the writes concatenate to exactly the next `count` bytes, and every write
except possibly the last is a full chunk. -/
theorem sendfile_fallback_loop_spec (data : List Nat) (chunk_size : Nat)
    (hcs : 1 ≤ chunk_size) :
    ∀ count pos, pos + count ≤ data.length →
      (sendfile_fallback_loop data chunk_size pos count).flatten =
        (data.drop pos).take count ∧
      ∀ w ∈ (sendfile_fallback_loop data chunk_size pos count).dropLast,
        w.length = chunk_size := by
  intro count
  induction count using Nat.strong_induction_on with
  | _ count ih =>
    intro pos hpos
    rw [sendfile_fallback_loop]
    by_cases h : ((data.drop pos).take chunk_size) ≠ [] ∧ chunk_size < count
    · rw [dif_pos h]
      have hlen : ((data.drop pos).take chunk_size).length = chunk_size := by
        simp only [List.length_take, List.length_drop]
        omega
      rw [hlen]
      have hrec := ih (count - chunk_size) (by omega) (pos + chunk_size) (by omega)
      constructor
      · rw [List.flatten_cons, hrec.1]
        have hsplit : (data.drop pos).take count =
            (data.drop pos).take chunk_size ++
              ((data.drop pos).drop chunk_size).take (count - chunk_size) := by
          conv_lhs => rw [show count = chunk_size + (count - chunk_size) by omega]
          rw [List.take_add]
        rw [hsplit, List.drop_drop]
      · intro w hw
        cases heq : sendfile_fallback_loop data chunk_size (pos + chunk_size)
            (count - chunk_size) with
        | nil =>
          rw [heq] at hw
          simp at hw
        | cons r rs =>
          rw [heq, List.dropLast_cons_of_ne_nil (by simp)] at hw
          rcases List.mem_cons.mp hw with hwc | hwtail
          · rw [hwc]
            exact hlen
          · exact hrec.2 w (by rw [heq]; exact hwtail)
    · rw [dif_neg h]
      by_cases h2 : ((data.drop pos).take chunk_size) ≠ []
      · rw [if_pos h2]
        have hle : count ≤ chunk_size := by
          by_contra hlt
          exact h ⟨h2, by omega⟩
        constructor
        · simp only [List.flatten_cons, List.flatten_nil, List.append_nil]
          rw [List.take_take]
          simp [Nat.min_eq_left hle]
        · intro w hw
          simp at hw
      · rw [if_neg h2]
        push_neg at h2
        rcases List.take_eq_nil_iff.mp h2 with hz | hnil
        · omega
        · constructor
          · rw [hnil]
            simp
          · intro w hw
            simp at hw

/-- C2: the buffered fallback, asked to transfer `count` bytes from a
source holding at least `count` bytes, terminates with writes that
concatenate to exactly the first `count` bytes in order (the final partial
write is `chunk[:count]`, never the whole last-read buffer), and every
write before the last is a full chunk; termination comes from the budget,
not from end-of-file. -/
theorem sendfile_fallback_exact (data : List Nat) (chunk_size count : Nat)
    (hcs : 1 ≤ chunk_size) (hcount : count ≤ data.length) :
    (sendfile_fallback data chunk_size count).flatten = data.take count ∧
    ∀ w ∈ (sendfile_fallback data chunk_size count).dropLast,
      w.length = chunk_size := by
  have h := sendfile_fallback_loop_spec data chunk_size hcs count 0 (by omega)
  simpa [sendfile_fallback] using h

/-- C2 witness: ten source bytes, chunk size 3, budget 7 — the writes
concatenate to exactly the first seven bytes even though the source is
longer. -/
theorem sendfile_fallback_exact_witness :
    (1 ≤ 3 ∧ 7 ≤ (List.range 10).length) ∧
      (sendfile_fallback (List.range 10) 3 7).flatten = (List.range 10).take 7 :=
  ⟨⟨by decide, by decide⟩,
    (sendfile_fallback_exact (List.range 10) 3 7 (by decide) (by decide)).1⟩

/-- Inversion for the re-registration tail of the callback. -/
theorem sendfile_advance_inProgress {offset count n o c : Nat}
    (h : sendfile_advance offset count n = .inProgress o c) :
    n < count ∧ o = offset + n ∧ c = count - n := by
  unfold sendfile_advance at h
  split at h
  · next hlt =>
    injection h with h1 h2
    exact ⟨hlt, h1.symm, h2.symm⟩
  · cases h

/-- C10: every state of the zero-copy retry loop reachable from
`(offset, count) = (0, total)` under kernel-bounded outcomes satisfies
`offset + count = total`, and a single attempt advances the offset by
exactly the reported byte count — `n` on a partial transfer of `n` bytes,
zero on would-block/interrupted — so no byte is transferred twice or
skipped. -/
theorem sendfile_cb_invariant (total : Nat) (s : CbState)
    (hs : SendfileReaches total s) :
    (∀ offset count, s = .inProgress offset count → offset + count = total) ∧
    (∀ offset count n, 0 < n → n < count →
      sendfile_system_cb offset count (.transferred n) =
        .inProgress (offset + n) (count - n)) ∧
    (∀ offset count, 0 < count →
      sendfile_system_cb offset count .wouldBlock = .inProgress offset count ∧
      sendfile_system_cb offset count .interrupted = .inProgress offset count) := by
  refine ⟨?_, ?_, ?_⟩
  · induction hs with
    | init =>
      intro o c h
      injection h with h1 h2
      omega
    | step offset count res hprev hk ih =>
      intro o c h
      have hoc : offset + count = total := ih offset count rfl
      cases res with
      | ioError e => simp [sendfile_system_cb] at h
      | wouldBlock =>
        obtain ⟨hlt, ho, hc⟩ := sendfile_advance_inProgress
          (show sendfile_advance offset count 0 = .inProgress o c from h)
        omega
      | interrupted =>
        obtain ⟨hlt, ho, hc⟩ := sendfile_advance_inProgress
          (show sendfile_advance offset count 0 = .inProgress o c from h)
        omega
      | transferred m =>
        have hk' : m ≤ count := hk
        by_cases hm : m = 0
        · simp only [sendfile_system_cb, hm, if_true] at h
          obtain ⟨hlt, ho, hc⟩ := sendfile_advance_inProgress h
          omega
        · simp only [sendfile_system_cb, hm, if_false] at h
          obtain ⟨hlt, ho, hc⟩ := sendfile_advance_inProgress h
          omega
  · intro offset count n hn hlt
    have hne : n ≠ 0 := by omega
    simp [sendfile_system_cb, sendfile_advance, hne, hlt]
  · intro offset count hc
    constructor <;> simp [sendfile_system_cb, sendfile_advance, hc]

/-- C10 witness: from `(0, 10)`, a partial transfer of 3 bytes reaches
`(3, 7)`, which satisfies the invariant, and the next reported 3 bytes
advance the state to exactly `(6, 4)`. -/
theorem sendfile_cb_invariant_witness :
    (3 : Nat) + 7 = 10 ∧
    sendfile_system_cb 3 7 (.transferred 3) = .inProgress 6 4 := by
  have hk : kernel_ok 10 (.transferred 3) := by
    show (3 : Nat) ≤ 10
    omega
  have h1 : SendfileReaches 10 (sendfile_system_cb 0 10 (.transferred 3)) :=
    SendfileReaches.step 0 10 (.transferred 3) SendfileReaches.init hk
  have e : sendfile_system_cb 0 10 (.transferred 3) = .inProgress 3 7 := by decide
  rw [e] at h1
  exact ⟨(sendfile_cb_invariant 10 (.inProgress 3 7) h1).1 3 7 rfl,
    (sendfile_cb_invariant 10 (.inProgress 3 7) h1).2.1 3 7 3 (by omega) (by omega)⟩

